import Mathlib

/-!
Verification of the inventory query engine of the Crafting-Inventory-System
repository (src/main-app/crafting_inventory_tk.py), against its
natural-language specification.

Embedding conventions:
* Python `str` is Lean `String`; `str.lower()` is `String.toLower`,
  `str.strip()` is `String.trim`, `" ".join(l)` is `" ".intercalate l`, and
  the substring test `a in b` is infix containment of the character lists.
* Python `float` quantities are embedded as `Rat`: the query pipeline only
  ever compares quantities, and comparison of the (exact, non-NaN) literal
  values used by the program agrees with the rational order.
* `datetime` values are embedded as `Nat` timestamps encoded `yyyymmdd`,
  an order-preserving encoding of the calendar dates the program uses;
  `datetime.now()` is passed in explicitly as a `now : Nat` argument.
* Python `set[str]` is embedded as `List String`: the code only tests
  emptiness and membership, for which duplicates and order are irrelevant.
* Methods that mutate `self` (`add_supply`, `delete_supply`, the save flow)
  are embedded as explicit state-passing functions `AppState → ... → AppState`;
  `query_supplies` likewise returns the (unchanged) state so that its
  frame property is a statement rather than a convention.
* `list.sort(key=k, reverse=r)` (CPython Timsort) is the stable sort by the
  comparison `k a ≤ k b`, flipped when `reverse` is true; it is embedded as
  `List.mergeSort`, the stable merge sort of the Lean core library.
-/

namespace CraftingInventory

/-- The `Supply` dataclass of crafting_inventory_tk.py (lines 19-30). -/
structure Supply where
  id : Nat
  name : String
  category : String
  quantity : Rat
  unit : String
  color : String := ""
  brand : String := ""
  tags : List String := []
  notes : String := ""
  updated : Nat := 0
deriving DecidableEq, Repr

/-- The fields of `AppState.__init__` (lines 44-154): the record collection,
the id counter, and the UI view state (search, sort, filters, pagination). -/
structure AppState where
  current_user : Option String
  supplies : List Supply
  next_id : Nat
  search_query : String
  sort_by : String
  sort_dir : String
  filter_categories : List String
  filter_units : List String
  filter_color : String
  filter_tags : String
  page_size : Nat
  page_index : Nat
deriving DecidableEq, Repr

/-- The seeded collection built by `AppState.__init__` (lines 48-140),
with dates encoded `yyyymmdd`. -/
def seedSupplies : List Supply := [
  { id := 1, name := "DK Yarn Blue", category := "Yarn",
    quantity := 3, unit := "skein", color := "Blue",
    brand := "Cascade", tags := ["dk", "wool", "blue"],
    notes := "For winter hat project.", updated := 20260119 },
  { id := 2, name := "Cotton Fabric", category := "Fabric",
    quantity := 5/2, unit := "yd", color := "White",
    brand := "Kona", tags := ["cotton", "white", "quilting"],
    notes := "For quilt borders.", updated := 20260119 },
  { id := 3, name := "4mm Needles", category := "Tool",
    quantity := 1, unit := "pair", color := "",
    brand := "", tags := [], notes := "", updated := 20260115 },
  { id := 4, name := "Worsted Yarn Red", category := "Yarn",
    quantity := 2, unit := "skein", color := "Red",
    brand := "Lion Brand", tags := ["worsted", "acrylic", "red"],
    notes := "Scarf project.", updated := 20260120 },
  { id := 5, name := "Cotton Batting", category := "Fabric",
    quantity := 1, unit := "yd", color := "Natural",
    brand := "Warm & Natural", tags := ["batting", "quilt"],
    notes := "Low loft.", updated := 20260122 },
  { id := 6, name := "Zipper 9-inch", category := "Notion",
    quantity := 4, unit := "pcs", color := "Black",
    brand := "YKK", tags := ["zipper", "bags", "notion"],
    notes := "For pouches.", updated := 20260118 },
  { id := 7, name := "All-Purpose Thread", category := "Notion",
    quantity := 200, unit := "g", color := "Ivory",
    brand := "Gutermann", tags := ["poly", "thread"],
    notes := "500m spool; approx weight for tracking.", updated := 20260123 },
  { id := 8, name := "Elastic 1-inch", category := "Notion",
    quantity := 5, unit := "m", color := "White",
    brand := "Dritz", tags := ["elastic", "waistband"],
    notes := "Non-roll.", updated := 20260121 },
  { id := 9, name := "Embroidery Floss Set", category := "Notion",
    quantity := 24, unit := "pcs", color := "Assorted",
    brand := "DMC", tags := ["floss", "embroidery", "assorted"],
    notes := "24-skein assorted pack.", updated := 20260117 },
  { id := 10, name := "Rotary Cutter Blades 45mm", category := "Tool",
    quantity := 5, unit := "pcs", color := "",
    brand := "Olfa", tags := ["rotary", "blades", "cutting"],
    notes := "Replacement blades.", updated := 20260124 },
  { id := 11, name := "Pins – Glass Head", category := "Notion",
    quantity := 100, unit := "pcs", color := "Assorted",
    brand := "Clover", tags := ["pins", "notion"],
    notes := "Heat-resistant heads.", updated := 20260116 },
  { id := 12, name := "Linen Fabric Natural", category := "Fabric",
    quantity := 7/4, unit := "yd", color := "Natural",
    brand := "Robert Kaufman", tags := ["linen", "garment"],
    notes := "Pre-washed.", updated := 20260125 },
  { id := 13, name := "Blocking Mats", category := "Tool",
    quantity := 9, unit := "pcs", color := "Gray",
    brand := "KnitIQ", tags := ["blocking", "knitting"],
    notes := "Interlocking tiles for blocking.", updated := 20260126 }]

/-- State built by `AppState.__init__` (lines 45-154).  Note the source seeds thirteen
records with ids 1-13 but sets `self.next_id = 4` (line 141). -/
def initState : AppState :=
  { current_user := none
    supplies := seedSupplies
    next_id := 4
    search_query := ""
    sort_by := "name"
    sort_dir := "asc"
    filter_categories := []
    filter_units := []
    filter_color := ""
    filter_tags := ""
    page_size := 10
    page_index := 0 }

/-- Method `AppState.add_supply` (lines 157-162): overwrite the draft id with
`next_id`, bump the counter, stamp `updated` with the current time, append.
Returns the stored record together with the new state. -/
def add_supply (st : AppState) (s : Supply) (now : Nat) : Supply × AppState :=
  let s := { s with id := st.next_id }
  let s := { s with updated := now }
  (s, { st with next_id := st.next_id + 1, supplies := st.supplies ++ [s] })

/-- Method `AppState.update_supply` (lines 164-165): refresh the `updated`
stamp of the record. -/
def update_supply (s : Supply) (now : Nat) : Supply :=
  { s with updated := now }

/-- Method `AppState.delete_supply` (lines 167-168). -/
def delete_supply (st : AppState) (supply_id : Nat) : AppState :=
  { st with supplies := st.supplies.filter (fun x => x.id ≠ supply_id) }

/-- Method `AppState.find_by_id` (lines 170-174): first record with the id, if any. -/
def find_by_id (st : AppState) (supply_id : Nat) : Option Supply :=
  st.supplies.find? (fun s => s.id = supply_id)

/-- The Python substring test `q in hay` on strings. -/
def containsSub (hay q : String) : Bool :=
  decide (q.toList <:+: hay.toList)

/-- Method `AppState._matches_filters` (lines 177-196).  The chain of
early `return False` checks in the source is written as one conjunction. -/
def _matches_filters (st : AppState) (s : Supply) : Bool :=
  let q := st.search_query.toLower.trim
  let hay := (" ".intercalate [s.name, s.category, " ".intercalate s.tags]).toLower
  (q.isEmpty || containsSub hay q)
  && (st.filter_categories.isEmpty || decide (s.category ∈ st.filter_categories))
  && (st.filter_units.isEmpty || decide (s.unit ∈ st.filter_units))
  && (st.filter_color.isEmpty || containsSub s.color.toLower st.filter_color.toLower)
  && (st.filter_tags.isEmpty || containsSub ((" ".intercalate s.tags).toLower) st.filter_tags.toLower)

/-- Method `AppState._sort_key` (lines 198-205) together with the Python
comparison of the resulting keys: for a fixed `sort_by` every key has one
type, and `sort_le sb a b` says `_sort_key a ≤ _sort_key b` in the order
of that type.  Unrecognised `sort_by` values fall through to the name key,
as in the final `return s.name.lower()` of the source. -/
def sort_le (sb : String) (a b : Supply) : Bool :=
  if sb = "name" then decide (a.name.toLower ≤ b.name.toLower)
  else if sb = "quantity" then decide (a.quantity ≤ b.quantity)
  else if sb = "updated" then decide (a.updated ≤ b.updated)
  else decide (a.name.toLower ≤ b.name.toLower)

/-- The comparison `rows.sort(key=self._sort_key, reverse=(self.sort_dir ==
"desc"))` (line 209) sorts by: `reverse=True` is the stable sort under the
flipped comparison. -/
def query_le (st : AppState) (a b : Supply) : Bool :=
  if st.sort_dir = "desc" then sort_le st.sort_by b a else sort_le st.sort_by a b

/-- The filter step of `AppState.query_supplies` (line 208). -/
def filteredRows (st : AppState) : List Supply :=
  st.supplies.filter (fun s => _matches_filters st s)

/-- The sort step of `AppState.query_supplies` (line 209). -/
def sortedRows (st : AppState) : List Supply :=
  (filteredRows st).mergeSort (query_le st)

/-- Method `AppState.query_supplies` (lines 207-215): filter, stable sort,
paginate; returns `(page, total)` and the (unmodified) state. -/
def query_supplies (st : AppState) : (List Supply × Nat) × AppState :=
  let rows := sortedRows st
  let total := rows.length
  let start := st.page_index * st.page_size
  (((rows.drop start).take st.page_size, total), st)

/-- The field values a save of the detail form writes back
(`DetailScreen._save`, lines 689-696). -/
structure SupplyFields where
  name : String
  category : String
  quantity : Rat
  unit : String
  color : String
  brand : String
  tags : List String
  notes : String
deriving DecidableEq, Repr

/-- The eight field assignments of `DetailScreen._save` (lines 689-696);
they never touch `id` or `updated`. -/
def apply_fields (fs : SupplyFields) (s : Supply) : Supply :=
  { s with name := fs.name, category := fs.category, quantity := fs.quantity,
           unit := fs.unit, color := fs.color, brand := fs.brand,
           tags := fs.tags, notes := fs.notes }

/-- In-place mutation of the record `find_by_id` returned: the first
record in the list carrying the id is replaced. -/
def mutate_first (l : List Supply) (sid : Nat) (f : Supply → Supply) : List Supply :=
  match l with
  | [] => []
  | s :: rest => if s.id = sid then f s :: rest else s :: mutate_first rest sid f

/-- The update operation keyed by id: `DetailScreen._save` (lines 684-697)
after validation.  `find_by_id`; when absent, report the error ("Item not
found" banner, here the `false` flag) and leave the state untouched;
when present, mutate the fields of that record in place and have
`AppState.update_supply` refresh its `updated` stamp. -/
def save_update (st : AppState) (sid : Nat) (fs : SupplyFields) (now : Nat) :
    AppState × Bool :=
  match find_by_id st sid with
  | none => (st, false)
  | some _ =>
    ({ st with supplies :=
        mutate_first st.supplies sid (fun s => update_supply (apply_fields fs s) now) },
      true)

/-- Equality of the `_sort_key` values of two records under a given
`sort_by` setting (same branch structure as `_sort_key`, lines 198-205). -/
def keyEq (sb : String) (a b : Supply) : Bool :=
  if sb = "name" then decide (a.name.toLower = b.name.toLower)
  else if sb = "quantity" then decide (a.quantity = b.quantity)
  else if sb = "updated" then decide (a.updated = b.updated)
  else decide (a.name.toLower = b.name.toLower)

/-- The filter predicate as the specification words it (spec §4.1 step 1):
a record passes iff every active condition holds. -/
def matchesSpec (st : AppState) (s : Supply) : Prop :=
  (st.search_query.toLower.trim ≠ "" →
    (st.search_query.toLower.trim).toList <:+:
      ((" ".intercalate [s.name, s.category, " ".intercalate s.tags]).toLower).toList)
  ∧ (st.filter_categories ≠ [] → s.category ∈ st.filter_categories)
  ∧ (st.filter_units ≠ [] → s.unit ∈ st.filter_units)
  ∧ (st.filter_color ≠ "" →
      (st.filter_color.toLower).toList <:+: (s.color.toLower).toList)
  ∧ (st.filter_tags ≠ "" →
      (st.filter_tags.toLower).toList <:+: ((" ".intercalate s.tags).toLower).toList)

/-- A draft record as the add form submits it (`AddManualScreen._save`
passes `id=0`; `add_supply` overwrites the id and the stamp). -/
def sampleDraft : Supply :=
  { id := 0, name := "Test Sock Yarn", category := "Yarn",
    quantity := 2, unit := "skein", color := "Green",
    brand := "", tags := ["sock"], notes := "", updated := 0 }

end CraftingInventory

namespace CraftingInventory

/-- Comparator lemma: `sort_le` is transitive in every branch. -/
lemma sort_le_trans (sb : String) (a b c : Supply) :
    sort_le sb a b = true → sort_le sb b c = true → sort_le sb a c = true := by
  unfold sort_le
  split_ifs <;>
    · simp only [decide_eq_true_iff]
      exact fun h1 h2 => le_trans h1 h2

/-- Comparator lemma: `sort_le` is total in every branch. -/
lemma sort_le_total (sb : String) (a b : Supply) :
    (sort_le sb a b || sort_le sb b a) = true := by
  unfold sort_le
  split_ifs <;>
    · simp only [Bool.or_eq_true, decide_eq_true_iff]
      exact le_total _ _

/-- Comparator lemma: the comparison actually passed to the sort is
transitive, in both sort directions. -/
lemma query_le_trans (st : AppState) (a b c : Supply) :
    query_le st a b = true → query_le st b c = true → query_le st a c = true := by
  unfold query_le
  split_ifs
  · exact fun h1 h2 => sort_le_trans st.sort_by c b a h2 h1
  · exact sort_le_trans st.sort_by a b c

/-- Comparator lemma: the comparison actually passed to the sort is
total, in both sort directions. -/
lemma query_le_total (st : AppState) (a b : Supply) :
    (query_le st a b || query_le st b a) = true := by
  unfold query_le
  split_ifs
  · exact sort_le_total st.sort_by b a
  · exact sort_le_total st.sort_by a b

/-- Two records whose sort keys both equal the key of a third record are
`sort_le`-equivalent. -/
lemma keyEq_sort_le (sb : String) (a b x : Supply)
    (ha : keyEq sb a x = true) (hb : keyEq sb b x = true) :
    sort_le sb a b = true ∧ sort_le sb b a = true := by
  unfold keyEq at ha hb
  unfold sort_le
  split_ifs at * <;> simp_all

/-- Replacing the first record carrying a given id, by a function that
preserves ids, is what a later `find?` by that id sees. -/
lemma find_mutate_first (l : List Supply) (sid : Nat) (f : Supply → Supply)
    (hf : ∀ s, (f s).id = s.id) (s : Supply)
    (h : l.find? (fun s => s.id = sid) = some s) :
    (mutate_first l sid f).find? (fun t => t.id = sid) = some (f s) := by
  induction l with
  | nil => simp at h
  | cons a rest ih =>
    by_cases ha : a.id = sid
    · rw [List.find?_cons_of_pos _ (by simpa using ha)] at h
      have has : a = s := by simpa using h
      rw [mutate_first, if_pos ha,
        List.find?_cons_of_pos _ (by simpa using (hf a).trans ha), has]
    · rw [List.find?_cons_of_neg _ (by simpa using ha)] at h
      rw [mutate_first, if_neg ha]
      rw [List.find?_cons_of_neg _ (by simpa using ha)]
      exact ih h

/-- C1: the claim fails on the code.  From the seeded collection (live ids
1-13) the very first `add_supply` assigns id 4, which is the id of the
live record "Worsted Yarn Red": `next_id` is 4 (line 141) although the
seed data extends to id 13, so create does not assign a fresh unused id. -/
theorem add_supply_assigns_live_id :
    (add_supply initState sampleDraft 0).1.id = 4
    ∧ 4 ∈ initState.supplies.map (fun s => s.id) := by decide

/-- C2: the claim fails on the code.  From the seeded collection, create
assigns id 4 to the draft, and `find_by_id 4` afterwards returns the
pre-existing record "Worsted Yarn Red" (the first match in the list), not
a record agreeing with the draft outside `id` and `updated`. -/
theorem create_find_round_trip_fails :
    (add_supply initState sampleDraft 0).1.id = 4
    ∧ (find_by_id (add_supply initState sampleDraft 0).2 4).map (fun s => s.name)
        = some "Worsted Yarn Red"
    ∧ sampleDraft.name ≠ "Worsted Yarn Red" := by decide

/-- C3: the update operation keyed by an absent id reports the not-found
error and leaves the state (hence the record collection) unchanged; keyed
by a present id it succeeds, and looking the id up afterwards yields the
first record carrying that id with exactly the submitted field values and
`updated` refreshed to now. -/
theorem save_update_spec (st : AppState) (sid : Nat) (fs : SupplyFields) (now : Nat) :
    (find_by_id st sid = none → save_update st sid fs now = (st, false))
    ∧ (∀ s, find_by_id st sid = some s →
        (save_update st sid fs now).2 = true
        ∧ find_by_id (save_update st sid fs now).1 sid
            = some { s with name := fs.name, category := fs.category,
                            quantity := fs.quantity, unit := fs.unit,
                            color := fs.color, brand := fs.brand,
                            tags := fs.tags, notes := fs.notes,
                            updated := now }) := by
  constructor
  · intro h
    unfold save_update
    rw [h]
  · intro s h
    unfold save_update
    rw [h]
    refine ⟨rfl, ?_⟩
    show (mutate_first st.supplies sid
        (fun t => update_supply (apply_fields fs t) now)).find? (fun t => t.id = sid)
      = _
    exact find_mutate_first st.supplies sid
      (fun t => update_supply (apply_fields fs t) now) (fun t => rfl) s h

/-- Field values used by the concrete witnesses. -/
def sampleFields : SupplyFields :=
  { name := "4mm Needles", category := "Tool", quantity := 2, unit := "pair",
    color := "Silver", brand := "Clover", tags := ["needles"], notes := "Spare set." }

/-- Witness for C3: id 99 is absent from the seeded state and the update
reports failure leaving the state intact; id 3 is present and the update
rewrites that record. -/
theorem save_update_spec_witness :
    (find_by_id initState 99 = none
      ∧ save_update initState 99 sampleFields 7 = (initState, false))
    ∧ ((save_update initState 3 sampleFields 7).2 = true
      ∧ find_by_id (save_update initState 3 sampleFields 7).1 3
          = some { id := 3, name := "4mm Needles", category := "Tool",
                   quantity := 2, unit := "pair", color := "Silver",
                   brand := "Clover", tags := ["needles"], notes := "Spare set.",
                   updated := 7 }) :=
  ⟨⟨by decide, (save_update_spec initState 99 sampleFields 7).1 (by decide)⟩,
    (save_update_spec initState 3 sampleFields 7).2
      { id := 3, name := "4mm Needles", category := "Tool", quantity := 1,
        unit := "pair", color := "", brand := "", tags := [], notes := "",
        updated := 20260115 } (by decide)⟩

/-- C4: for every state and every page index and page size, the total
returned by `query_supplies` is the number of records passing the filter
step, independent of pagination. -/
theorem query_total_count (st : AppState) (pi ps : Nat) :
    (query_supplies { st with page_index := pi, page_size := ps }).1.2
      = (st.supplies.filter (fun s => _matches_filters st s)).length := by
  show ((filteredRows _).mergeSort _).length = _
  rw [List.length_mergeSort]
  rfl

/-- C5: the page returned by `query_supplies` is the window
[pageIndex*pageSize, pageIndex*pageSize + pageSize) of the sorted filtered
sequence, its length is min(pageSize, max(0, total - pageIndex*pageSize)),
and an out-of-range page index yields the empty page. -/
theorem query_page_window (st : AppState) :
    (query_supplies st).1.1
        = ((sortedRows st).drop (st.page_index * st.page_size)).take st.page_size
    ∧ (((query_supplies st).1.1.length : Int)
        = min (st.page_size : Int)
            (max 0 (((query_supplies st).1.2 : Int)
              - ((st.page_index * st.page_size : Nat) : Int))))
    ∧ ((query_supplies st).1.2 ≤ st.page_index * st.page_size →
        (query_supplies st).1.1 = []) := by
  refine ⟨rfl, ?_, ?_⟩
  · show ((((sortedRows st).drop (st.page_index * st.page_size)).take st.page_size).length : Int)
        = min (st.page_size : Int)
            (max 0 (((sortedRows st).length : Int)
              - ((st.page_index * st.page_size : Nat) : Int)))
    rw [List.length_take, List.length_drop]
    generalize st.page_index * st.page_size = n
    generalize (sortedRows st).length = L
    omega
  · intro h
    show ((sortedRows st).drop _).take _ = []
    rw [List.drop_eq_nil_of_le h, List.take_nil]

/-- Witness for C5: a state whose filtered total (0) is at most
pageIndex*pageSize (10) returns the empty page. -/
def emptyPageState : AppState := { initState with supplies := [], page_index := 1 }

/-- Witness for C5: out-of-range page index yields an empty page. -/
theorem query_page_window_witness :
    (query_supplies emptyPageState).1.2
        ≤ emptyPageState.page_index * emptyPageState.page_size
    ∧ (query_supplies emptyPageState).1.1 = [] :=
  ⟨by simp [query_supplies, sortedRows, filteredRows, emptyPageState],
    (query_page_window emptyPageState).2.2
      (by simp [query_supplies, sortedRows, filteredRows, emptyPageState])⟩

/-- C6: the sort performed by `query_supplies` is stable for every sort
key and both directions: the records whose sort key equals that of any
fixed record `x` appear in the sorted output in exactly the order the
filtered input collection had them. -/
theorem query_sort_stable (st : AppState) (x : Supply) :
    (sortedRows st).filter (fun s => keyEq st.sort_by s x)
      = (filteredRows st).filter (fun s => keyEq st.sort_by s x) := by
  have hpair : ((filteredRows st).filter (fun s => keyEq st.sort_by s x)).Pairwise
      (fun a b => query_le st a b = true) := by
    apply List.pairwise_of_forall_mem_list
    intro a ha b hb
    have ha' := (List.mem_filter.mp ha).2
    have hb' := (List.mem_filter.mp hb).2
    have h1 := keyEq_sort_le st.sort_by a b x ha' hb'
    unfold query_le
    split_ifs
    · exact h1.2
    · exact h1.1
  have hsub : (filteredRows st).filter (fun s => keyEq st.sort_by s x)
      |>.Sublist (filteredRows st) := List.filter_sublist _
  have h1 : (filteredRows st).filter (fun s => keyEq st.sort_by s x)
      |>.Sublist (sortedRows st) :=
    List.sublist_mergeSort (query_le_trans st) (query_le_total st) hpair hsub
  have h2 : ((sortedRows st).filter (fun s => keyEq st.sort_by s x)).Perm
      ((filteredRows st).filter (fun s => keyEq st.sort_by s x)) :=
    (List.mergeSort_perm _ _).filter _
  have h3 : (filteredRows st).filter (fun s => keyEq st.sort_by s x)
      |>.Sublist ((sortedRows st).filter (fun s => keyEq st.sort_by s x)) := by
    have h4 := h1.filter (fun s => keyEq st.sort_by s x)
    rwa [List.filter_eq_self.mpr (fun a ha => (List.mem_filter.mp ha).2)] at h4
  exact (h3.eq_of_length h2.length_eq.symm).symm

/-- C7: a record passes `_matches_filters` exactly when every active
condition of the specification holds: search substring over the folded
join of name, category and space-joined tags; category and unit
membership; folded substring match on color; folded substring match on
the space-joined tags. -/
theorem matches_filters_spec (st : AppState) (s : Supply) :
    _matches_filters st s = true ↔ matchesSpec st s := by
  unfold _matches_filters matchesSpec containsSub
  simp only [Bool.and_eq_true, Bool.or_eq_true, decide_eq_true_iff,
    String.isEmpty_iff, List.isEmpty_iff]
  constructor
  · rintro ⟨⟨⟨⟨h1, h2⟩, h3⟩, h4⟩, h5⟩
    exact ⟨fun hq => h1.resolve_left hq, fun hc => h2.resolve_left hc,
      fun hu => h3.resolve_left hu, fun hcol => h4.resolve_left hcol,
      fun ht => h5.resolve_left ht⟩
  · rintro ⟨h1, h2, h3, h4, h5⟩
    refine ⟨⟨⟨⟨?_, ?_⟩, ?_⟩, ?_⟩, ?_⟩ <;>
      [exact or_iff_not_imp_left.mpr h1; exact or_iff_not_imp_left.mpr h2;
       exact or_iff_not_imp_left.mpr h3; exact or_iff_not_imp_left.mpr h4;
       exact or_iff_not_imp_left.mpr h5]

/-- C8: `query_supplies` has no side effects: the state it hands back (the
record collection with its order, and every view-state field) is the
input state. -/
theorem query_supplies_pure (st : AppState) : (query_supplies st).2 = st := rfl

/-- C9: a `sort_by` value outside name, quantity and updated (for example
the empty string) sorts exactly as the name key does: the visible result
of `query_supplies` coincides with the result under `sort_by = "name"`. -/
theorem query_sort_by_fallback (st : AppState)
    (h : st.sort_by ∉ (["name", "quantity", "updated"] : List String)) :
    (query_supplies st).1 = (query_supplies { st with sort_by := "name" }).1 := by
  simp only [List.mem_cons, List.not_mem_nil, or_false, not_or] at h
  obtain ⟨h1, h2, h3⟩ := h
  have hkey : sort_le st.sort_by = sort_le "name" := by
    funext a b
    simp [sort_le, if_neg h1, if_neg h2, if_neg h3]
  have hle : query_le st = query_le { st with sort_by := "name" } := by
    funext a b
    show (if st.sort_dir = "desc" then _ else _) = (if st.sort_dir = "desc" then _ else _)
    rw [hkey]
  show ((sortedRows st).drop _ |>.take _, (sortedRows st).length) = _
  have hrows : sortedRows st = sortedRows { st with sort_by := "name" } := by
    show (filteredRows st).mergeSort (query_le st)
        = (filteredRows { st with sort_by := "name" }).mergeSort _
    rw [hle]
    rfl
  rw [hrows]
  rfl

/-- State for the C9 witness: the seeded state with an empty `sort_by`. -/
def blankSortState : AppState := { initState with sort_by := "" }

/-- Witness for C9 at the empty `sort_by` string. -/
theorem query_sort_by_fallback_witness :
    blankSortState.sort_by ∉ (["name", "quantity", "updated"] : List String)
    ∧ (query_supplies blankSortState).1
        = (query_supplies { blankSortState with sort_by := "name" }).1 :=
  ⟨by decide, query_sort_by_fallback blankSortState (by decide)⟩

/-- C10: every `sort_dir` value other than exactly "desc" (for example
"DESC") sorts ascending: the visible result of `query_supplies` coincides
with the result under `sort_dir = "asc"`. -/
theorem query_sort_dir_fallback (st : AppState) (h : st.sort_dir ≠ "desc") :
    (query_supplies st).1 = (query_supplies { st with sort_dir := "asc" }).1 := by
  have hle : query_le st = query_le { st with sort_dir := "asc" } := by
    funext a b
    show (if st.sort_dir = "desc" then _ else _)
        = (if ("asc" : String) = "desc" then _ else _)
    rw [if_neg h, if_neg (by decide : ("asc" : String) ≠ "desc")]
  have hrows : sortedRows st = sortedRows { st with sort_dir := "asc" } := by
    show (filteredRows st).mergeSort (query_le st)
        = (filteredRows { st with sort_dir := "asc" }).mergeSort _
    rw [hle]
    rfl
  show ((sortedRows st).drop _ |>.take _, (sortedRows st).length) = _
  rw [hrows]
  rfl

/-- State for the C10 witness: the seeded state with `sort_dir = "DESC"`. -/
def upperDescState : AppState := { initState with sort_dir := "DESC" }

/-- Witness for C10 at the uppercase direction string "DESC". -/
theorem query_sort_dir_fallback_witness :
    upperDescState.sort_dir ≠ "desc"
    ∧ (query_supplies upperDescState).1
        = (query_supplies { upperDescState with sort_dir := "asc" }).1 :=
  ⟨by decide, query_sort_dir_fallback upperDescState (by decide)⟩

end CraftingInventory
